import Mathlib

/-!
Shallow embedding of `src/services/barcodeDetectionService.ts`
(class `BarcodeDetectionService`), the detection orchestration core of the
barcode-scanner frontend.

The two external decoder backends are modelled by the values they hand back
to the service:
* jsQR (`jsQR(pixels, w, h)`) returns `{data : string} | null`, modelled as
  `Option QRCode`; the source tests `qrCode && qrCode.data`, i.e. the result
  is non-null and its `data` string is truthy (non-empty).
* Quagga's `decodeSingle` callback receives `result`, possibly null, whose
  `codeResult` may itself be absent: `Option QuaggaSingleResult`.
* Quagga's streaming `onDetected` event always carries `data.codeResult`
  with `code` and `format`: `DetectedData`.

Effectful statements (DOM access, promise resolution, callback registration)
become explicit state passing on `ServiceState`, and each public operation
additionally reports the observable it produces (the resolved value of its
promise, the synchronous callback invocation, whether a backend call was
made), so that the theorems can speak about invocation counts and
short-circuiting, not only about returned values.
-/

namespace BarcodeDetection

/-- The `BarcodeDetectionResult` interface of the source: `success` plus the
optional `barcode`, `error` and `format` string fields. -/
structure BarcodeDetectionResult where
  success : Bool
  barcode : Option String := none
  error : Option String := none
  format : Option String := none
deriving Repr, DecidableEq

/-- Return value of jsQR when non-null: an object with a `data` payload. -/
structure QRCode where
  data : String
deriving Repr, DecidableEq

/-- Quagga's `codeResult` object: the decoded `code` and its `format`. -/
structure CodeResult where
  code : String
  format : String
deriving Repr, DecidableEq

/-- Argument of the `Quagga.decodeSingle` callback: the `result` object may
be null, and when present its `codeResult` may be absent; the source tests
`result && result.codeResult`. -/
structure QuaggaSingleResult where
  codeResult : Option CodeResult
deriving Repr, DecidableEq

/-- Payload of a `Quagga.onDetected` streaming event (`data.codeResult`). -/
structure DetectedData where
  codeResult : CodeResult
deriving Repr, DecidableEq

/-- Mutable state of the service: the static `isInitialized` flag, whether
`Quagga.start()` has been called (the continuous pipeline is running), and
how many detection callbacks are currently registered with
`Quagga.onDetected` (each `startCameraDetection` call registers one;
`Quagga.offDetected()` removes them all). -/
structure ServiceState where
  isInitialized : Bool
  quaggaStarted : Bool
  numCallbacks : Nat
deriving Repr, DecidableEq

/-- State at module load: `isInitialized = false`, nothing started, no
callback registered. -/
def initialState : ServiceState := ⟨false, false, 0⟩

/-- Observable outcome of `initializeCamera`: the returned promise resolves
`true`, resolves `false` (the `catch` branch), or rejects with the backend
error. -/
inductive InitOutcome where
  | resolvedTrue
  | resolvedFalse
  | rejected (err : String)
deriving Repr, DecidableEq

/-- `initializeCamera`. `syncThrow` models a synchronous exception inside
the `try` block (caught, `return false`); `backendErr` is the `err` value
`Quagga.init` passes to its callback. When `backendErr` is present the
executor calls `reject(err)`: because the inner promise is returned from the
`try` block without `await`, that rejection is adopted by the async
function's promise and is NOT caught by the surrounding `catch`, so the
caller observes a rejection. The third component records whether
`Quagga.init` (device acquisition) was invoked. -/
def initializeCamera (s : ServiceState) (syncThrow : Bool)
    (backendErr : Option String) : ServiceState × InitOutcome × Bool :=
  if s.isInitialized then (s, .resolvedTrue, false)
  else if syncThrow then (s, .resolvedFalse, false)
  else
    match backendErr with
    | some e => (s, .rejected e, true)
    | none => ({ s with isInitialized := true }, .resolvedTrue, true)

/-- Result normalized by the `Quagga.onDetected` handler that
`startCameraDetection` registers: always `success: true` with the event's
`code` and `format`. -/
def onDetectedResult (d : DetectedData) : BarcodeDetectionResult :=
  { success := true, barcode := some d.codeResult.code,
    format := some d.codeResult.format }

/-- `startCameraDetection(onDetected)`. If the service is not initialized
the consumer callback is invoked synchronously exactly once with the
"Camera not initialized" failure (returned as `some result`) and the state
is untouched; otherwise `Quagga.start()` runs and one more handler is
registered with `Quagga.onDetected` (the source never unregisters an
existing handler first). -/
def startCameraDetection (s : ServiceState) :
    ServiceState × Option BarcodeDetectionResult :=
  if s.isInitialized then
    ({ s with quaggaStarted := true, numCallbacks := s.numCallbacks + 1 },
      none)
  else
    (s, some { success := false, error := some "Camera not initialized" })

/-- Results delivered to the consumer when the Quagga pipeline fires one
`onDetected` event: every registered handler runs, each producing the same
normalized result. -/
def deliverDetection (s : ServiceState) (d : DetectedData) :
    List BarcodeDetectionResult :=
  List.replicate s.numCallbacks (onDetectedResult d)

/-- A camera frame, described by what each backend would decode from it:
`matrixDecode` is jsQR's answer on its pixels, `linearDecode` is whether the
Quagga streaming pipeline decodes it (firing `onDetected`). -/
structure Frame where
  matrixDecode : Option QRCode
  linearDecode : Option DetectedData
deriving Repr, DecidableEq

/-- What the streaming path emits for one frame: `startCameraDetection`
only wires `Quagga.start()` and `Quagga.onDetected`, so a frame is decoded
by the Quagga pipeline alone — `onDetected` fires exactly when
`linearDecode` succeeds, and jsQR is never consulted on streaming frames. -/
def streamingFrameEmissions (s : ServiceState) (f : Frame) :
    List BarcodeDetectionResult :=
  match f.linearDecode with
  | some d => deliverDetection s d
  | none => []

/-- Modelled from the spec's words, for comparison with
`streamingFrameEmissions` (the source has no such streaming pipeline): the
claimed fallback chain applied to each streaming frame — matrix decoder
first, linear decoder second, the first success normalized and delivered to
every registered consumer. -/
def specFallbackStreamingEmissions (s : ServiceState) (f : Frame) :
    List BarcodeDetectionResult :=
  match f.matrixDecode with
  | some q =>
    if q.data ≠ "" then
      List.replicate s.numCallbacks
        { success := true, barcode := some q.data, format := some "QR_CODE" }
    else
      match f.linearDecode with
      | some d => deliverDetection s d
      | none => []
  | none =>
    match f.linearDecode with
    | some d => deliverDetection s d
    | none => []

/-- `stopCameraDetection`. When initialized it calls `Quagga.stop()` and
`Quagga.offDetected()` (which removes every registered handler); otherwise
it does nothing. The second component records whether `Quagga.stop` was
invoked (a device-pipeline release was attempted). -/
def stopCameraDetectionRun (s : ServiceState) : ServiceState × Bool :=
  if s.isInitialized then
    ({ s with quaggaStarted := false, numCallbacks := 0 }, true)
  else (s, false)

/-- State after `stopCameraDetection`. -/
def stopCameraDetection (s : ServiceState) : ServiceState :=
  (stopCameraDetectionRun s).1

/-- `cleanup`: calls `stopCameraDetection()` unconditionally, then sets
`isInitialized = false`. The second component records whether a device
release (`Quagga.stop`) was attempted. -/
def cleanupRun (s : ServiceState) : ServiceState × Bool :=
  let r := stopCameraDetectionRun s
  ({ r.1 with isInitialized := false }, r.2)

/-- State after `cleanup`. -/
def cleanup (s : ServiceState) : ServiceState := (cleanupRun s).1

/-- Branch taken on the `Quagga.decodeSingle` callback in both one-shot
paths: `result && result.codeResult` yields success with Quagga's code and
format, anything else yields the fixed "No barcode detected in image"
failure. -/
def decodeSingleToResult (r : Option QuaggaSingleResult) :
    BarcodeDetectionResult :=
  match r with
  | some res =>
    match res.codeResult with
    | some cr =>
      { success := true, barcode := some cr.code, format := some cr.format }
    | none => { success := false, error := some "No barcode detected in image" }
  | none => { success := false, error := some "No barcode detected in image" }

/-- `detectFromImageFile`. Inputs describe the environment of the call:
`syncThrow` a synchronous exception in the `try` block (caught: "Failed to
process image"), `ctxOk` whether `canvas.getContext('2d')` is non-null,
`imgLoads` whether the image fires `onload` (else `onerror`: "Could not
load image"), `qr` jsQR's answer on the drawn pixels, `single` the value
the `Quagga.decodeSingle` callback would receive. The second component
records whether `Quagga.decodeSingle` (the linear decoder) was invoked. -/
def detectFromImageFileRun (syncThrow ctxOk imgLoads : Bool)
    (qr : Option QRCode) (single : Option QuaggaSingleResult) :
    BarcodeDetectionResult × Bool :=
  if syncThrow then
    ({ success := false, error := some "Failed to process image" }, false)
  else if ctxOk = false then
    ({ success := false, error := some "Could not get canvas context" }, false)
  else if imgLoads = false then
    ({ success := false, error := some "Could not load image" }, false)
  else
    match qr with
    | some q =>
      if q.data ≠ "" then
        ({ success := true, barcode := some q.data, format := some "QR_CODE" },
          false)
      else (decodeSingleToResult single, true)
    | none => (decodeSingleToResult single, true)

/-- The `BarcodeDetectionResult` that `detectFromImageFile` resolves. -/
def detectFromImageFile (syncThrow ctxOk imgLoads : Bool)
    (qr : Option QRCode) (single : Option QuaggaSingleResult) :
    BarcodeDetectionResult :=
  (detectFromImageFileRun syncThrow ctxOk imgLoads qr single).1

/-- `detectFromCanvas`: same pipeline as `detectFromImageFile` but the
caller supplies an already-rendered canvas, so there is no image-load step,
and the `catch` message is "Failed to process canvas". The second component
records whether `Quagga.decodeSingle` was invoked. -/
def detectFromCanvasRun (syncThrow ctxOk : Bool) (qr : Option QRCode)
    (single : Option QuaggaSingleResult) : BarcodeDetectionResult × Bool :=
  if syncThrow then
    ({ success := false, error := some "Failed to process canvas" }, false)
  else if ctxOk = false then
    ({ success := false, error := some "Could not get canvas context" }, false)
  else
    match qr with
    | some q =>
      if q.data ≠ "" then
        ({ success := true, barcode := some q.data, format := some "QR_CODE" },
          false)
      else (decodeSingleToResult single, true)
    | none => (decodeSingleToResult single, true)

/-- The `BarcodeDetectionResult` that `detectFromCanvas` resolves. -/
def detectFromCanvas (syncThrow ctxOk : Bool) (qr : Option QRCode)
    (single : Option QuaggaSingleResult) : BarcodeDetectionResult :=
  (detectFromCanvasRun syncThrow ctxOk qr single).1

/-- jsQR "yields a result" in the sense the source tests:
`qrCode && qrCode.data` (non-null with a truthy, i.e. non-empty, string). -/
def matrixHit (qr : Option QRCode) : Bool :=
  match qr with
  | some q => q.data ≠ ""
  | none => false

/-- Quagga `decodeSingle` "yields a result" in the sense the source tests:
`result && result.codeResult`. -/
def linearHit (r : Option QuaggaSingleResult) : Bool :=
  match r with
  | some res => res.codeResult.isSome
  | none => false

/-- One public operation on the service, for reachability arguments. -/
inductive Op where
  | init (syncThrow : Bool) (backendErr : Option String)
  | start
  | stop
  | clean
deriving Repr, DecidableEq

/-- State transition of one operation (observables discarded). -/
def step (s : ServiceState) : Op → ServiceState
  | .init st e => (initializeCamera s st e).1
  | .start => (startCameraDetection s).1
  | .stop => stopCameraDetection s
  | .clean => cleanup s

/-- State reached by running a sequence of operations from module load. -/
def run (ops : List Op) : ServiceState :=
  ops.foldl step initialState

/-- Invariant of every reachable state: an uninitialized service has the
pipeline stopped and no handler registered. -/
def tidy (s : ServiceState) : Prop :=
  s.isInitialized = false → s.quaggaStarted = false ∧ s.numCallbacks = 0

lemma tidy_initialState : tidy initialState := by
  intro _
  exact ⟨rfl, rfl⟩

lemma tidy_step (s : ServiceState) (h : tidy s) (op : Op) : tidy (step s op) := by
  cases op with
  | init st e =>
    cases hh : s.isInitialized with
    | true => simpa [step, initializeCamera, hh] using h
    | false =>
      cases st with
      | true => simpa [step, initializeCamera, hh] using h
      | false =>
        cases e with
        | some er => simpa [step, initializeCamera, hh] using h
        | none =>
          intro hx
          simp [step, initializeCamera, hh] at hx
  | start =>
    cases hh : s.isInitialized with
    | true =>
      intro hx
      simp [step, startCameraDetection, hh] at hx
    | false => simpa [step, startCameraDetection, hh] using h
  | stop =>
    cases hh : s.isInitialized with
    | true =>
      intro hx
      simp [step, stopCameraDetection, stopCameraDetectionRun, hh] at hx
    | false => simpa [step, stopCameraDetection, stopCameraDetectionRun, hh] using h
  | clean =>
    cases hh : s.isInitialized with
    | true =>
      intro _
      simp [step, cleanup, cleanupRun, stopCameraDetectionRun, hh]
    | false =>
      intro _
      simpa [step, cleanup, cleanupRun, stopCameraDetectionRun, hh] using h hh

lemma tidy_foldl (ops : List Op) (s : ServiceState) (h : tidy s) :
    tidy (ops.foldl step s) := by
  induction ops generalizing s with
  | nil => exact h
  | cons op rest ih => exact ih _ (tidy_step s h op)

lemma cleanup_of_tidy (s : ServiceState) (h : tidy s) :
    cleanup s = initialState := by
  cases hh : s.isInitialized with
  | true => simp [cleanup, cleanupRun, stopCameraDetectionRun, hh, initialState]
  | false =>
    obtain ⟨h1, h2⟩ := h hh
    simp [cleanup, cleanupRun, stopCameraDetectionRun, hh, initialState, h1, h2]

lemma decodeSingleToResult_error (single : Option QuaggaSingleResult)
    (h : (decodeSingleToResult single).success = false) :
    (decodeSingleToResult single).error.isSome = true := by
  match single with
  | none => rfl
  | some res =>
    match hres : res.codeResult with
    | none => simp [decodeSingleToResult, hres]
    | some cr => simp [decodeSingleToResult, hres] at h

/-- C1: evaluated at a backend permission-denied error from the
uninitialized state, `initializeCamera` rejects the returned promise with
that error — the `reject(err)` in the `Quagga.init` callback escapes the
surrounding `try`/`catch` because the inner promise is returned without
`await` — instead of resolving `false` as the documented never-throw
boundary (and the function's own `catch` branch) intends. -/
theorem c1_initializeCamera_rejects_on_backend_error :
    initializeCamera initialState false
        (some "NotAllowedError: permission denied")
      = (initialState,
          InitOutcome.rejected "NotAllowedError: permission denied", true) ∧
    (initializeCamera initialState false
        (some "NotAllowedError: permission denied")).2.1
      ≠ InitOutcome.resolvedFalse := by
  exact ⟨rfl, by decide⟩

/-- C2 counterexample: from an initialized state with no handler yet
registered, calling `startCameraDetection` twice registers two handlers
with `Quagga.onDetected`, and one physical detection event then delivers
two results to the consumer, not exactly one — the claim fails as stated. -/
theorem c2_counterexample :
    ((step (step ⟨true, false, 0⟩ Op.start) Op.start).numCallbacks = 2) ∧
    (deliverDetection (step (step ⟨true, false, 0⟩ Op.start) Op.start)
        ⟨⟨"4006381333931", "ean_13"⟩⟩).length = 2 ∧
    (deliverDetection (step (step ⟨true, false, 0⟩ Op.start) Op.start)
        ⟨⟨"4006381333931", "ean_13"⟩⟩).length ≠ 1 := by
  exact ⟨rfl, rfl, by decide⟩

/-- C2 amended: `startCameraDetection` on an initialized service always
registers one more detection callback without removing the existing ones,
so after n starts while streaming each physical detection event delivers
n results to the consumer (callback registrations stack; they are not
replaced and a repeated start is not a no-op). -/
theorem c2_startCameraDetection_accumulates (s : ServiceState)
    (h : s.isInitialized = true) (d : DetectedData) :
    ((startCameraDetection s).1).numCallbacks = s.numCallbacks + 1 ∧
    (deliverDetection (startCameraDetection s).1 d).length
      = s.numCallbacks + 1 := by
  simp [startCameraDetection, h, deliverDetection]

theorem c2_amended_witness :
    ((startCameraDetection ⟨true, false, 0⟩).1).numCallbacks = 0 + 1 ∧
    (deliverDetection (startCameraDetection ⟨true, false, 0⟩).1
        ⟨⟨"4006381333931", "ean_13"⟩⟩).length = 0 + 1 :=
  c2_startCameraDetection_accumulates ⟨true, false, 0⟩ rfl
    ⟨⟨"4006381333931", "ean_13"⟩⟩

/-- C3 counterexample: on a streaming frame that the matrix decoder would
decode (payload "ITEM-42") but the Quagga pipeline does not, the service
emits nothing, while the claimed fallback chain (matrix first, then
linear) would emit the QR result — streaming frames are not run through
the fallback decode chain. -/
theorem c3_counterexample :
    streamingFrameEmissions ⟨true, true, 1⟩ ⟨some ⟨"ITEM-42"⟩, none⟩ = [] ∧
    specFallbackStreamingEmissions ⟨true, true, 1⟩ ⟨some ⟨"ITEM-42"⟩, none⟩
      = [{ success := true, barcode := some "ITEM-42",
           format := some "QR_CODE" }] ∧
    streamingFrameEmissions ⟨true, true, 1⟩ ⟨some ⟨"ITEM-42"⟩, none⟩
      ≠ specFallbackStreamingEmissions ⟨true, true, 1⟩
          ⟨some ⟨"ITEM-42"⟩, none⟩ := by
  refine ⟨rfl, ?_, ?_⟩ <;> decide

/-- C3 amended: during continuous streaming detection every frame is
decoded by the linear (Quagga) pipeline alone: what is emitted depends only
on the frame's linear decode — the matrix decoder is never consulted — and
when the pipeline decodes a frame, its normalized result is what every
registered callback receives. -/
theorem c3_streaming_linear_only (s : ServiceState) (f g : Frame)
    (h : f.linearDecode = g.linearDecode) :
    streamingFrameEmissions s f = streamingFrameEmissions s g ∧
    ∀ d : DetectedData, f.linearDecode = some d →
      streamingFrameEmissions s f
        = List.replicate s.numCallbacks (onDetectedResult d) := by
  constructor
  · simp [streamingFrameEmissions, h]
  · intro d hd
    simp [streamingFrameEmissions, hd, deliverDetection]

theorem c3_amended_witness :
    streamingFrameEmissions ⟨true, true, 1⟩
        ⟨some ⟨"ITEM-42"⟩, some ⟨⟨"4006381333931", "ean_13"⟩⟩⟩
      = streamingFrameEmissions ⟨true, true, 1⟩
          ⟨none, some ⟨⟨"4006381333931", "ean_13"⟩⟩⟩ :=
  (c3_streaming_linear_only ⟨true, true, 1⟩
    ⟨some ⟨"ITEM-42"⟩, some ⟨⟨"4006381333931", "ean_13"⟩⟩⟩
    ⟨none, some ⟨⟨"4006381333931", "ean_13"⟩⟩⟩ rfl).1

/-- C4: whenever jsQR yields a non-empty payload (on a frame whose pixel
buffer was obtained: no exception, context available, image loaded), both
one-shot paths return success with that payload and format "QR_CODE", and
`Quagga.decodeSingle` — the linear decoder — is never invoked. -/
theorem c4_matrix_short_circuit (q : QRCode) (h : q.data ≠ "")
    (single : Option QuaggaSingleResult) :
    detectFromImageFileRun false true true (some q) single
      = ({ success := true, barcode := some q.data,
           format := some "QR_CODE" }, false) ∧
    detectFromCanvasRun false true (some q) single
      = ({ success := true, barcode := some q.data,
           format := some "QR_CODE" }, false) := by
  constructor <;>
    simp [detectFromImageFileRun, detectFromCanvasRun, h]

theorem c4_witness :
    detectFromImageFileRun false true true (some ⟨"ITEM-42"⟩)
        (some ⟨some ⟨"4006381333931", "ean_13"⟩⟩)
      = ({ success := true, barcode := some "ITEM-42",
           format := some "QR_CODE" }, false) :=
  (c4_matrix_short_circuit ⟨"ITEM-42"⟩ (by decide)
    (some ⟨some ⟨"4006381333931", "ean_13"⟩⟩)).1

/-- C5: when the service is not initialized — which holds at module load,
after a failed `initializeCamera`, and after `cleanup` — the total function
`startCameraDetection` leaves the state untouched and synchronously invokes
the consumer callback exactly once with the "Camera not initialized"
failure, without starting the device pipeline and without throwing. -/
theorem c5_start_uninitialized (s t : ServiceState) (e : String)
    (h : s.isInitialized = false) :
    startCameraDetection s
      = (s, some { success := false,
                   error := some "Camera not initialized" }) ∧
    initialState.isInitialized = false ∧
    ((initializeCamera initialState false (some e)).1).isInitialized
      = false ∧
    (cleanup t).isInitialized = false := by
  refine ⟨?_, rfl, rfl, ?_⟩
  · simp [startCameraDetection, h]
  · simp [cleanup, cleanupRun]

theorem c5_witness :
    startCameraDetection initialState
      = (initialState,
          some { success := false,
                 error := some "Camera not initialized" }) :=
  (c5_start_uninitialized initialState ⟨true, true, 2⟩ "err" rfl).1

/-- C6: when neither decoder yields a result — jsQR returns null or an
empty payload, and the `decodeSingle` result is null or has no
`codeResult` — both one-shot paths return exactly the "No barcode detected
in image" failure. -/
theorem c6_no_barcode (qr : Option QRCode)
    (single : Option QuaggaSingleResult)
    (h1 : matrixHit qr = false) (h2 : linearHit single = false) :
    detectFromImageFile false true true qr single
      = { success := false,
          error := some "No barcode detected in image" } ∧
    detectFromCanvas false true qr single
      = { success := false,
          error := some "No barcode detected in image" } := by
  have hs : decodeSingleToResult single
      = { success := false,
          error := some "No barcode detected in image" } := by
    match single with
    | none => rfl
    | some res =>
      match hres : res.codeResult with
      | none => simp [decodeSingleToResult, hres]
      | some cr => simp [linearHit, hres] at h2
  match qr with
  | none =>
    simp [detectFromImageFile, detectFromCanvas, detectFromImageFileRun,
      detectFromCanvasRun, hs]
  | some q =>
    have hq : q.data = "" := by simpa [matrixHit] using h1
    simp [detectFromImageFile, detectFromCanvas, detectFromImageFileRun,
      detectFromCanvasRun, hq, hs]

theorem c6_witness :
    detectFromImageFile false true true (some ⟨""⟩) (some ⟨none⟩)
      = { success := false,
          error := some "No barcode detected in image" } :=
  (c6_no_barcode (some ⟨""⟩) (some ⟨none⟩) (by decide) rfl).1

/-- C7: `initializeCamera` is idempotent: on an already-initialized service
any further call resolves `true` immediately with no device acquisition,
and consequently after a first successful call the second of two
consecutive calls resolves `true` without acquiring again, so two
consecutive successful calls acquire the device at most once. -/
theorem c7_initializeCamera_idempotent (s : ServiceState) (st : Bool)
    (e : Option String) :
    (s.isInitialized = true →
      initializeCamera s st e = (s, InitOutcome.resolvedTrue, false)) ∧
    (initializeCamera s false none).2.1 = InitOutcome.resolvedTrue ∧
    initializeCamera (initializeCamera s false none).1 st e
      = ((initializeCamera s false none).1,
          InitOutcome.resolvedTrue, false) := by
  cases hh : s.isInitialized with
  | true => simp [initializeCamera, hh]
  | false => simp [initializeCamera, hh]

/-- C8: every failure while obtaining a 2D context or decoding the image
source is caught and converted to its context-specific failure result — a
synchronous exception yields "Failed to process image" / "Failed to
process canvas", a null 2D context "Could not get canvas context", a failed
image load "Could not load image" — and on every input both one-shot paths
return a result (the embedding is a total function: nothing is rethrown)
that carries an error string whenever success is false. -/
theorem c8_errors_caught (st ctxOk ld : Bool) (qr : Option QRCode)
    (single : Option QuaggaSingleResult) :
    (st = true →
      detectFromImageFile st ctxOk ld qr single
        = { success := false, error := some "Failed to process image" } ∧
      detectFromCanvas st ctxOk qr single
        = { success := false, error := some "Failed to process canvas" }) ∧
    (st = false → ctxOk = false →
      detectFromImageFile st ctxOk ld qr single
        = { success := false,
            error := some "Could not get canvas context" } ∧
      detectFromCanvas st ctxOk qr single
        = { success := false,
            error := some "Could not get canvas context" }) ∧
    (st = false → ctxOk = true → ld = false →
      detectFromImageFile st ctxOk ld qr single
        = { success := false, error := some "Could not load image" }) ∧
    ((detectFromImageFile st ctxOk ld qr single).success = false →
      (detectFromImageFile st ctxOk ld qr single).error.isSome = true) ∧
    ((detectFromCanvas st ctxOk qr single).success = false →
      (detectFromCanvas st ctxOk qr single).error.isSome = true) := by
  refine ⟨?_, ?_, ?_, ?_, ?_⟩
  · intro h1
    subst h1
    exact ⟨rfl, rfl⟩
  · intro h1 h2
    subst h1; subst h2
    exact ⟨rfl, rfl⟩
  · intro h1 h2 h3
    subst h1; subst h2; subst h3
    rfl
  · intro hfail
    cases st with
    | true => rfl
    | false =>
      cases ctxOk with
      | false => rfl
      | true =>
        cases ld with
        | false => rfl
        | true =>
          match qr with
          | none =>
            exact decodeSingleToResult_error single hfail
          | some q =>
            by_cases hq : q.data = ""
            · simpa [detectFromImageFile, detectFromImageFileRun, hq] using
                decodeSingleToResult_error single
                  (by simpa [detectFromImageFile, detectFromImageFileRun, hq]
                    using hfail)
            · simp [detectFromImageFile, detectFromImageFileRun, hq] at hfail
  · intro hfail
    cases st with
    | true => rfl
    | false =>
      cases ctxOk with
      | false => rfl
      | true =>
        match qr with
        | none =>
          exact decodeSingleToResult_error single hfail
        | some q =>
          by_cases hq : q.data = ""
          · simpa [detectFromCanvas, detectFromCanvasRun, hq] using
              decodeSingleToResult_error single
                (by simpa [detectFromCanvas, detectFromCanvasRun, hq]
                  using hfail)
          · simp [detectFromCanvas, detectFromCanvasRun, hq] at hfail

/-- C9: `cleanup` goes through `stopCameraDetection` and resets the state
to uninitialized: after any sequence of public operations it returns the
service exactly to the module-load state; called when the service was never
initialized it attempts no device release and is a state no-op; and from
every state it leaves the service uninitialized. -/
theorem c9_cleanup_resets (ops : List Op) :
    cleanup (run ops) = initialState ∧
    cleanupRun initialState = (initialState, false) ∧
    ∀ t : ServiceState, (cleanup t).isInitialized = false := by
  refine ⟨cleanup_of_tidy _ (tidy_foldl ops initialState tidy_initialState),
    rfl, ?_⟩
  intro t
  simp [cleanup, cleanupRun]

/-- C10: streaming deliveries only arise from detection events: every
result the registered callbacks deliver has success true with barcode and
format populated and no error field, and a frame the Quagga pipeline does
not decode produces no callback invocation at all. -/
theorem c10_streaming_success_only (s : ServiceState) (f : Frame)
    (r : BarcodeDetectionResult) (h : r ∈ streamingFrameEmissions s f) :
    r.success = true ∧ r.barcode.isSome = true ∧ r.format.isSome = true ∧
    r.error = none ∧
    (f.linearDecode = none → streamingFrameEmissions s f = []) := by
  cases hf : f.linearDecode with
  | none => simp [streamingFrameEmissions, hf] at h
  | some d =>
    simp only [streamingFrameEmissions, hf, deliverDetection] at h
    have hr := List.eq_of_mem_replicate h
    subst hr
    refine ⟨rfl, rfl, rfl, rfl, ?_⟩
    intro hnone
    exact absurd hnone (by simp)

theorem c10_witness :
    (onDetectedResult ⟨⟨"4006381333931", "ean_13"⟩⟩).success = true ∧
    (onDetectedResult ⟨⟨"4006381333931", "ean_13"⟩⟩).barcode.isSome
      = true ∧
    (onDetectedResult ⟨⟨"4006381333931", "ean_13"⟩⟩).format.isSome
      = true ∧
    (onDetectedResult ⟨⟨"4006381333931", "ean_13"⟩⟩).error = none ∧
    ((⟨none, some ⟨⟨"4006381333931", "ean_13"⟩⟩⟩ : Frame).linearDecode
        = none →
      streamingFrameEmissions ⟨true, true, 1⟩
        ⟨none, some ⟨⟨"4006381333931", "ean_13"⟩⟩⟩ = []) :=
  c10_streaming_success_only ⟨true, true, 1⟩
    ⟨none, some ⟨⟨"4006381333931", "ean_13"⟩⟩⟩
    (onDetectedResult ⟨⟨"4006381333931", "ean_13"⟩⟩) (by decide)

end BarcodeDetection
